import Mathlib

/-!
Shallow embedding of the landing-zone-accelerator constructs:
the `EnableAwsServiceAccess` and `OrganizationalUnit` CDK constructs
(aws-organizations) and the `AcceleratorPipeline` stage assembly
(accelerator/lib/pipeline.ts).  Construct-tree building is modelled as
explicit state passing: a `Stack` records the custom-resource providers
created so far (keyed by resource-type string, as
`cdk.CustomResourceProvider.getOrCreateProvider` does) and the static
`OrganizationalUnit.isLogGroupConfigured` flag is threaded alongside.
-/

/-- An IAM policy statement as passed to a custom-resource provider. -/
structure PolicyStatement where
  effect : String
  actions : List String
  resource : String
deriving DecidableEq, Repr

/-- The configuration handed to `getOrCreateProvider`. -/
structure ProviderConfig where
  codeDirectory : String
  runtime : String
  policyStatements : List PolicyStatement
deriving DecidableEq, Repr

/-- A custom-resource provider singleton.  `providerId` is the identity of
the underlying construct (fresh at creation time); two calls that return
the same provider return the same `providerId`. -/
structure Provider where
  providerId : Nat
  key : String
  cfg : ProviderConfig
deriving DecidableEq, Repr

/-- The provider's service token: an attribute of the singleton construct,
so a function of the construct identity. -/
def Provider.serviceToken (p : Provider) : String :=
  "Token:ServiceToken:" ++ toString p.providerId

/-- The CloudFormation ref of the provider's Handler child, used by
`OrganizationalUnit` to name the pre-created log group. -/
def Provider.handlerRef (p : Provider) : String :=
  "Token:Ref:Provider" ++ toString p.providerId ++ "/Handler"

/-- The per-stack state relevant to the constructs: the singleton
custom-resource providers created so far, keyed by the uniqueid string. -/
structure Stack where
  providers : List (String × Provider)
  nextId : Nat
deriving DecidableEq, Repr

/-- `cdk.CustomResourceProvider.getOrCreateProvider`: returns the provider
already registered in the stack under `key`, or creates (and registers) a
fresh one with configuration `cfg`. -/
def getOrCreateProvider (st : Stack) (key : String) (cfg : ProviderConfig) :
    Provider × Stack :=
  match st.providers.lookup key with
  | some p => (p, st)
  | none =>
    let p : Provider := { providerId := st.nextId, key := key, cfg := cfg }
    (p, { providers := st.providers ++ [(key, p)], nextId := st.nextId + 1 })

/-- A `cdk.CustomResource`: resource type, service token, properties, and
the construct-tree dependencies added with `node.addDependency`. -/
structure CustomResource where
  constructPath : String
  resourceType : String
  serviceToken : String
  properties : List (String × String)
  dependencies : List String
deriving DecidableEq, Repr

/-- The `ref` of a custom resource (its physical resource id token). -/
def CustomResource.ref (r : CustomResource) : String :=
  "Token:Ref:" ++ r.constructPath

/-- `getAttString`: the Fn::GetAtt token for attribute `attr`. -/
def CustomResource.getAttString (r : CustomResource) (attr : String) : String :=
  "Token:GetAtt:" ++ attr ++ ":" ++ r.constructPath

/-- The `cdk.Aws.PARTITION` pseudo-parameter token. -/
def awsPartitionToken : String := "Token:AWS.Partition"

/-- A `cdk.aws_logs.LogGroup` as created by `OrganizationalUnit`. -/
structure LogGroup where
  logGroupName : String
  retention : Nat
  encryptionKey : String
  removalPolicy : String
deriving DecidableEq, Repr

/-- `EnableAwsServiceAccessProps` (enable-aws-service-access.ts). -/
structure EnableAwsServiceAccessProps where
  servicePrincipal : String
deriving DecidableEq, Repr

/-- What one `EnableAwsServiceAccess` construction produces: the exposed
`id`, the provider it used, and the custom resource it created. -/
structure EnableAwsServiceAccessResult where
  id : String
  provider : Provider
  resource : CustomResource
deriving DecidableEq, Repr

/-- The uniqueid under which `EnableAwsServiceAccess` registers its
provider. -/
def easaKey : String := "Custom::OrganizationsEnableAwsServiceAccess"

/-- The provider configuration `EnableAwsServiceAccess` passes to
`getOrCreateProvider`. -/
def easaProviderConfig : ProviderConfig :=
  { codeDirectory := "enable-aws-service-access/dist"
  , runtime := "nodejs14.x"
  , policyStatements :=
      [ { effect := "Allow"
        , actions :=
            [ "organizations:DisableAWSServiceAccess"
            , "organizations:EnableAwsServiceAccess" ]
        , resource := "*" } ] }

/-- The `EnableAwsServiceAccess` constructor (enable-aws-service-access.ts):
gets/creates the provider, creates the custom resource with properties
partition plus the spread of props, and exposes `id = resource.ref`. -/
def constructEnableAwsServiceAccess (stack : Stack) (cid : String)
    (props : EnableAwsServiceAccessProps) :
    EnableAwsServiceAccessResult × Stack :=
  let pr := getOrCreateProvider stack easaKey easaProviderConfig
  let resource : CustomResource :=
    { constructPath := cid ++ "/Resource"
    , resourceType := "Custom::EnableAwsServiceAccess"
    , serviceToken := pr.1.serviceToken
    , properties :=
        [ ("partition", awsPartitionToken)
        , ("servicePrincipal", props.servicePrincipal) ]
    , dependencies := [] }
  ({ id := resource.ref, provider := pr.1, resource := resource }, pr.2)

/-- `OrganizationalUnitProps` (organizational-unit.ts): name, path, the
log-group encryption key reference, and the log retention in days. -/
structure OrganizationalUnitProps where
  name : String
  path : String
  kmsKey : String
  logRetentionInDays : Nat
deriving DecidableEq, Repr

/-- What one `OrganizationalUnit` construction produces: the exposed
identifiers, the provider, the custom resource, and the log group when
this instance created one. -/
structure OrganizationalUnitResult where
  organizationalUnitName : String
  organizationalUnitPath : String
  organizationalUnitId : String
  organizationalUnitArn : String
  provider : Provider
  resource : CustomResource
  logGroup : Option LogGroup
deriving DecidableEq, Repr

/-- The uniqueid under which `OrganizationalUnit` registers its provider. -/
def ouKey : String := "Custom::OrganizationsCreateOrganizationalUnit"

/-- The provider configuration `OrganizationalUnit` passes to
`getOrCreateProvider` (variable `createOrganizationalUnitFunction`). -/
def ouProviderConfig : ProviderConfig :=
  { codeDirectory := "create-organizational-unit/dist"
  , runtime := "nodejs14.x"
  , policyStatements :=
      [ { effect := "Allow"
        , actions :=
            [ "organizations:CreateOrganizationalUnit"
            , "organizations:ListOrganizationalUnitsForParent"
            , "organizations:ListRoots"
            , "organizations:UpdateOrganizationalUnit" ]
        , resource := "*" } ] }

/-- The construction state for `OrganizationalUnit`: the stack plus the
static `isLogGroupConfigured` flag. -/
structure OUState where
  stack : Stack
  isLogGroupConfigured : Bool
deriving DecidableEq, Repr

/-- The `OrganizationalUnit` constructor (organizational-unit.ts):
gets/creates the provider, creates the custom resource with properties
partition/name/path, and — only when the static flag is still unset —
creates the log group, adds it as a dependency of the custom resource,
and sets the flag. -/
def constructOrganizationalUnit (st : OUState) (cid : String)
    (props : OrganizationalUnitProps) :
    OrganizationalUnitResult × OUState :=
  let pr := getOrCreateProvider st.stack ouKey ouProviderConfig
  let lgd : Option LogGroup × List String × Bool :=
    if st.isLogGroupConfigured then
      (none, [], st.isLogGroupConfigured)
    else
      ( some
          { logGroupName := "/aws/lambda/" ++ pr.1.handlerRef
          , retention := props.logRetentionInDays
          , encryptionKey := props.kmsKey
          , removalPolicy := "DESTROY" }
      , [cid ++ "/LogGroup"]
      , true )
  let resource : CustomResource :=
    { constructPath := cid ++ "/Resource"
    , resourceType := "Custom::CreateOrganizationalUnit"
    , serviceToken := pr.1.serviceToken
    , properties :=
        [ ("partition", awsPartitionToken)
        , ("name", props.name)
        , ("path", props.path) ]
    , dependencies := lgd.2.1 }
  ( { organizationalUnitName := props.name
    , organizationalUnitPath := props.path
    , organizationalUnitId := resource.ref
    , organizationalUnitArn := resource.getAttString "arn"
    , provider := pr.1
    , resource := resource
    , logGroup := lgd.1 }
  , { stack := pr.2, isLogGroupConfigured := lgd.2.2 } )

/-- Construct a whole sequence of `OrganizationalUnit`s (construct id and
props for each), threading the stack and the static flag. -/
def constructOUs (st : OUState) :
    List (String × OrganizationalUnitProps) →
    List OrganizationalUnitResult × OUState
  | [] => ([], st)
  | (cid, p) :: rest =>
    let r := constructOrganizationalUnit st cid p
    let rs := constructOUs r.2 rest
    (r.1 :: rs.1, rs.2)

/-- How many log-group constructs a run of constructions produced. -/
def countLogGroups (rs : List OrganizationalUnitResult) : Nat :=
  (rs.filterMap (fun r => r.logGroup)).length

/-- One construction step in a stack: either an `EnableAwsServiceAccess`
or an `OrganizationalUnit`. -/
inductive Cmd where
  | easa (cid : String) (props : EnableAwsServiceAccessProps)
  | ou (cid : String) (props : OrganizationalUnitProps)
deriving DecidableEq, Repr

/-- Apply one construction step to the state (discarding the result). -/
def applyCmd (st : OUState) : Cmd → OUState
  | Cmd.easa cid p =>
    { st with stack := (constructEnableAwsServiceAccess st.stack cid p).2 }
  | Cmd.ou cid p => (constructOrganizationalUnit st cid p).2

/-- Apply a sequence of construction steps. -/
def applyCmds (st : OUState) : List Cmd → OUState
  | [] => st
  | c :: cs => applyCmds (applyCmd st c) cs

/-- A source-control action in a pipeline stage
(`codepipeline_actions.CodeCommitSourceAction`). -/
structure SourceActionProps where
  actionName : String
  runOrder : Option Nat
  repository : String
  branch : String
  output : String
  trigger : String
deriving DecidableEq, Repr

/-- A build action in a pipeline stage
(`codepipeline_actions.CodeBuildAction`). -/
structure CodeBuildActionProps where
  actionName : String
  runOrder : Option Nat
  project : String
  input : String
  outputs : List String
  extraInputs : List String
  role : String
  environmentVariables : List (String × String)
deriving DecidableEq, Repr

/-- A pipeline action. -/
inductive PipelineAction where
  | source (p : SourceActionProps)
  | build (p : CodeBuildActionProps)
deriving DecidableEq, Repr

/-- The run order supplied when the action was created. -/
def PipelineAction.runOrder : PipelineAction → Option Nat
  | PipelineAction.source p => p.runOrder
  | PipelineAction.build p => p.runOrder

/-- A pipeline stage: name plus the ordered actions. -/
structure Stage where
  stageName : String
  actions : List PipelineAction
deriving DecidableEq, Repr

/-- Modelled from the spec: the `AcceleratorStage` enumeration referenced
by pipeline.ts lives in the package entry point, which is not in the
repository snapshot; the spec names the workflow stages (logging,
organizations, security-audit, security), giving the stage identifier
strings. -/
def AcceleratorStage.LOGGING : String := "logging"

/-- Modelled from the spec: see `AcceleratorStage.LOGGING`. -/
def AcceleratorStage.ORGANIZATIONS : String := "organizations"

/-- Modelled from the spec: see `AcceleratorStage.LOGGING`. -/
def AcceleratorStage.SECURITY_AUDIT : String := "security-audit"

/-- Modelled from the spec: see `AcceleratorStage.LOGGING`. -/
def AcceleratorStage.SECURITY : String := "security"

/-- `AcceleratorPipeline.createToolkitStage` (pipeline.ts): a CodeBuild
action on the shared toolkit project, with the Build-stage output as
input, the configuration repository artifact as extra input, the pipeline
role, and a single `CDK_OPTIONS` environment variable. -/
def createToolkitStage (actionName : String) (cdkOptions : String)
    (runOrder : Option Nat) : PipelineAction :=
  PipelineAction.build
    { actionName := actionName
    , runOrder := runOrder
    , project := "ToolkitProject"
    , input := "Build"
    , outputs := []
    , extraInputs := ["Config"]
    , role := "PipelineRole"
    , environmentVariables := [("CDK_OPTIONS", cdkOptions)] }

/-- The stages the `AcceleratorPipeline` constructor adds, in the order of
its `pipeline.addStage` calls (pipeline.ts), as a function of the
`sourceRepositoryName` and `sourceBranchName` props. -/
def acceleratorPipelineStages (sourceRepositoryName sourceBranchName : String) :
    List Stage :=
  [ { stageName := "Source"
    , actions :=
        [ PipelineAction.source
            { actionName := "Source"
            , runOrder := none
            , repository := sourceRepositoryName
            , branch := sourceBranchName
            , output := "Source"
            , trigger := "NONE" }
        , PipelineAction.source
            { actionName := "Configuration"
            , runOrder := none
            , repository := "accelerator-config"
            , branch := "main"
            , output := "Config"
            , trigger := "NONE" } ] }
  , { stageName := "Build"
    , actions :=
        [ PipelineAction.build
            { actionName := "Build"
            , runOrder := none
            , project := "BuildProject"
            , input := "Source"
            , outputs := ["Build"]
            , extraInputs := []
            , role := "PipelineRole"
            , environmentVariables := [] } ] }
  , { stageName := "Bootstrap"
    , actions :=
        [ createToolkitStage "Bootstrap"
            ("bootstrap --partition " ++ awsPartitionToken) none ] }
  , { stageName := "Logging"
    , actions :=
        [ createToolkitStage "Logging"
            ("deploy --stage " ++ AcceleratorStage.LOGGING) none ] }
  , { stageName := "Organization"
    , actions :=
        [ createToolkitStage "Organizations"
            ("deploy --stage " ++ AcceleratorStage.ORGANIZATIONS) none ] }
  , { stageName := "SecurityAudit"
    , actions :=
        [ createToolkitStage "SecurityAudit"
            ("deploy --stage " ++ AcceleratorStage.SECURITY_AUDIT) none ] }
  , { stageName := "Deploy"
    , actions :=
        [ createToolkitStage "Security"
            ("deploy --stage " ++ AcceleratorStage.SECURITY) (some 1) ] } ]

/-- The CodeBuild actions of the toolkit stages (every stage after Source
and Build consists only of `createToolkitStage` actions). -/
def pipelineToolkitActions (sourceRepositoryName sourceBranchName : String) :
    List CodeBuildActionProps :=
  ((acceleratorPipelineStages sourceRepositoryName sourceBranchName).drop 2).flatMap
    (fun s =>
      s.actions.filterMap (fun a =>
        match a with
        | PipelineAction.build c => some c
        | PipelineAction.source _ => none))

/-! ## Helper lemmas -/

/-- A successful association-list lookup survives appending on the right. -/
theorem lookup_append_of_some (l1 l2 : List (String × Provider)) (k : String)
    (p : Provider) (h : l1.lookup k = some p) :
    (l1 ++ l2).lookup k = some p := by
  induction l1 with
  | nil => simp [List.lookup] at h
  | cons hd tl ih =>
    obtain ⟨a, b⟩ := hd
    by_cases hk : k == a
    · simp only [List.lookup, List.cons_append, hk, if_true] at h ⊢; exact h
    · simp only [Bool.not_eq_true] at hk
      simp only [List.lookup, List.cons_append, hk, if_false] at h ⊢
      exact ih h

/-- Appending a fresh binding makes it the lookup result. -/
theorem lookup_append_fresh (l : List (String × Provider)) (k : String)
    (p : Provider) (h : l.lookup k = none) :
    (l ++ [(k, p)]).lookup k = some p := by
  induction l with
  | nil => simp [List.lookup]
  | cons hd tl ih =>
    obtain ⟨a, b⟩ := hd
    by_cases hk : k == a
    · simp only [List.lookup, hk, if_true] at h
      exact absurd h (by simp)
    · simp only [Bool.not_eq_true] at hk
      simp only [List.lookup, List.cons_append, hk, if_false] at h ⊢
      exact ih h

/-- A filterMap over a list on which the function is everywhere none is
empty. -/
theorem filterMap_eq_nil_of_none {α β : Type} (f : α → Option β)
    (l : List α) (h : ∀ a ∈ l, f a = none) : l.filterMap f = [] := by
  induction l with
  | nil => rfl
  | cons hd tl ih =>
    simp [List.filterMap_cons, h hd (by simp), ih (fun a ha => h a (by simp [ha]))]

/-- After `getOrCreateProvider`, the key is bound to the returned
provider. -/
theorem getOrCreateProvider_binds (st : Stack) (key : String)
    (cfg : ProviderConfig) :
    ((getOrCreateProvider st key cfg).2).providers.lookup key =
      some (getOrCreateProvider st key cfg).1 := by
  unfold getOrCreateProvider
  cases h : st.providers.lookup key with
  | some p => simp [h]
  | none => simp only [h]; exact lookup_append_fresh _ _ _ h

/-- `getOrCreateProvider` returns the already-registered provider when the
key is bound. -/
theorem getOrCreateProvider_of_lookup (st : Stack) (key : String)
    (cfg : ProviderConfig) (p : Provider)
    (h : st.providers.lookup key = some p) :
    (getOrCreateProvider st key cfg).1 = p := by
  unfold getOrCreateProvider
  simp [h]

/-- `getOrCreateProvider` never unbinds a key. -/
theorem getOrCreateProvider_preserves (st : Stack) (k key : String)
    (cfg : ProviderConfig) (p : Provider)
    (h : st.providers.lookup k = some p) :
    ((getOrCreateProvider st key cfg).2).providers.lookup k = some p := by
  unfold getOrCreateProvider
  cases hq : st.providers.lookup key with
  | some q => simpa [hq] using h
  | none => simp only [hq]; exact lookup_append_of_some _ _ _ _ h

/-- Every construction step preserves provider bindings. -/
theorem applyCmd_preserves (st : OUState) (c : Cmd) (k : String) (p : Provider)
    (h : st.stack.providers.lookup k = some p) :
    ((applyCmd st c).stack).providers.lookup k = some p := by
  cases c with
  | easa cid q =>
    exact getOrCreateProvider_preserves st.stack k easaKey easaProviderConfig p h
  | ou cid q =>
    exact getOrCreateProvider_preserves st.stack k ouKey ouProviderConfig p h

/-- A whole sequence of construction steps preserves provider bindings. -/
theorem applyCmds_preserves (cs : List Cmd) :
    ∀ (st : OUState) (k : String) (p : Provider),
      st.stack.providers.lookup k = some p →
      ((applyCmds st cs).stack).providers.lookup k = some p := by
  induction cs with
  | nil => intro st k p h; exact h
  | cons c cs ih =>
    intro st k p h
    exact ih (applyCmd st c) k p (applyCmd_preserves st c k p h)

/-- After any `OrganizationalUnit` construction the static flag is set. -/
theorem ou_flag_monotone (st : OUState) (cid : String)
    (p : OrganizationalUnitProps) :
    (constructOrganizationalUnit st cid p).2.isLogGroupConfigured = true := by
  unfold constructOrganizationalUnit
  cases h : st.isLogGroupConfigured <;> simp [h]

/-- With the static flag already set, no construction in a run of
`OrganizationalUnit` constructions creates a log group. -/
theorem constructOUs_no_loggroup_of_flag
    (ous : List (String × OrganizationalUnitProps)) :
    ∀ st : OUState, st.isLogGroupConfigured = true →
      ∀ r ∈ (constructOUs st ous).1, r.logGroup = none := by
  induction ous with
  | nil => intro st h r hr; simp [constructOUs] at hr
  | cons hd tl ih =>
    intro st h r hr
    obtain ⟨cid, p⟩ := hd
    simp only [constructOUs, List.mem_cons] at hr
    rcases hr with hr | hr
    · subst hr; simp [constructOrganizationalUnit, h]
    · exact ih _ (ou_flag_monotone st cid p) r hr

/-! ## Claims -/

/-- C1: over any sequence of `OrganizationalUnit` constructions in one
synthesis pass (static flag initially unset), at most one log-group
construct is created in total; every instance after the first creates
none; and with at least one instance exactly one log group is produced,
by the first-constructed instance. -/
theorem ou_log_group_at_most_once (stack : Stack)
    (ous : List (String × OrganizationalUnitProps)) :
    countLogGroups (constructOUs ⟨stack, false⟩ ous).1 ≤ 1 ∧
    (∀ r ∈ ((constructOUs ⟨stack, false⟩ ous).1).tail, r.logGroup = none) ∧
    (ous ≠ [] →
      countLogGroups (constructOUs ⟨stack, false⟩ ous).1 = 1 ∧
      ∃ r, ((constructOUs ⟨stack, false⟩ ous).1).head? = some r ∧
        r.logGroup.isSome) := by
  cases ous with
  | nil =>
    exact ⟨by simp [constructOUs, countLogGroups], by simp [constructOUs],
      fun h => absurd rfl h⟩
  | cons hd tl =>
    obtain ⟨cid, p⟩ := hd
    have hres : (constructOUs ⟨stack, false⟩ ((cid, p) :: tl)).1 =
        (constructOrganizationalUnit ⟨stack, false⟩ cid p).1 ::
          (constructOUs (constructOrganizationalUnit ⟨stack, false⟩ cid p).2 tl).1 :=
      rfl
    have hnone : ∀ r ∈
        (constructOUs (constructOrganizationalUnit ⟨stack, false⟩ cid p).2 tl).1,
        r.logGroup = none :=
      constructOUs_no_loggroup_of_flag tl _ (ou_flag_monotone _ cid p)
    have hhd : (constructOrganizationalUnit ⟨stack, false⟩ cid p).1.logGroup.isSome :=
      rfl
    obtain ⟨lg, hlg⟩ := Option.isSome_iff_exists.mp hhd
    have hcount : countLogGroups (constructOUs ⟨stack, false⟩ ((cid, p) :: tl)).1 = 1 := by
      rw [hres]
      unfold countLogGroups
      rw [List.filterMap_cons]
      simp only [hlg]
      rw [filterMap_eq_nil_of_none _ _ (fun a ha => hnone a ha)]
      rfl
    refine ⟨le_of_eq hcount, ?_, fun _ => ⟨hcount, ?_⟩⟩
    · rw [hres]
      exact fun r hr => hnone r hr
    · exact ⟨(constructOrganizationalUnit ⟨stack, false⟩ cid p).1, rfl, hhd⟩

/-- Witness for C1: a concrete two-instance run produces exactly one log
group. -/
theorem ou_log_group_at_most_once_witness :
    ([(("Security" : String),
        ({ name := "Security", path := "/", kmsKey := "cmk"
         , logRetentionInDays := 365 } : OrganizationalUnitProps)),
      (("Infrastructure" : String),
        ({ name := "Infrastructure", path := "/", kmsKey := "cmk"
         , logRetentionInDays := 30 } : OrganizationalUnitProps))] ≠
      ([] : List (String × OrganizationalUnitProps))) ∧
    countLogGroups (constructOUs ⟨⟨[], 0⟩, false⟩
      [("Security",
        { name := "Security", path := "/", kmsKey := "cmk"
        , logRetentionInDays := 365 }),
       ("Infrastructure",
        { name := "Infrastructure", path := "/", kmsKey := "cmk"
        , logRetentionInDays := 30 })]).1 = 1 :=
  ⟨by simp,
    ((ou_log_group_at_most_once ⟨[], 0⟩
      [("Security",
        { name := "Security", path := "/", kmsKey := "cmk"
        , logRetentionInDays := 365 }),
       ("Infrastructure",
        { name := "Infrastructure", path := "/", kmsKey := "cmk"
        , logRetentionInDays := 30 })]).2.2 (by simp)).1⟩

/-- C2: the `AcceleratorPipeline` constructor adds exactly seven stages,
in the positional order of its `addStage` calls: the source stage, the
build stage, then the Bootstrap, Logging, Organization(s), SecurityAudit
and Deploy stages. -/
theorem pipeline_seven_stages_in_order (r b : String) :
    (acceleratorPipelineStages r b).length = 7 ∧
    (acceleratorPipelineStages r b).map (fun s => s.stageName) =
      ["Source", "Build", "Bootstrap", "Logging", "Organization",
       "SecurityAudit", "Deploy"] :=
  ⟨rfl, rfl⟩

/-- C3: across all stages of the `AcceleratorPipeline`, an explicit
run-order is supplied only for the action of the final Deploy stage
(value 1); every action in every other stage has its run order left
undefined. -/
theorem run_order_only_in_deploy_stage (r b : String) :
    (acceleratorPipelineStages r b).map
        (fun s => (s.stageName, s.actions.map PipelineAction.runOrder)) =
      [("Source", [none, none]), ("Build", [none]), ("Bootstrap", [none]),
       ("Logging", [none]), ("Organization", [none]),
       ("SecurityAudit", [none]), ("Deploy", [some 1])] :=
  rfl

/-- C4: the provider an `EnableAwsServiceAccess` construction registers is
granted exactly the two organization API operations
DisableAWSServiceAccess and EnableAwsServiceAccess, in a single Allow
statement on resource any, and nothing else (assuming the stack has no
conflicting binding under the fixed key, which only this class uses). -/
theorem easa_provider_policy_two_actions (stack : Stack) (cid : String)
    (p : EnableAwsServiceAccessProps)
    (h : ∀ q : Provider, stack.providers.lookup easaKey = some q →
           q.cfg = easaProviderConfig) :
    (constructEnableAwsServiceAccess stack cid p).1.provider.cfg.policyStatements =
      [{ effect := "Allow"
       , actions := ["organizations:DisableAWSServiceAccess",
                     "organizations:EnableAwsServiceAccess"]
       , resource := "*" }] := by
  unfold constructEnableAwsServiceAccess getOrCreateProvider
  cases hq : stack.providers.lookup easaKey with
  | none => simp [hq, easaProviderConfig]
  | some q => simp [hq, h q hq, easaProviderConfig]

/-- Witness for C4: a construction in an empty stack. -/
theorem easa_provider_policy_two_actions_witness :
    (constructEnableAwsServiceAccess ⟨[], 0⟩ "EnableAccess"
        ⟨"ssm.amazonaws.com"⟩).1.provider.cfg.policyStatements =
      [{ effect := "Allow"
       , actions := ["organizations:DisableAWSServiceAccess",
                     "organizations:EnableAwsServiceAccess"]
       , resource := "*" }] :=
  easa_provider_policy_two_actions ⟨[], 0⟩ "EnableAccess" ⟨"ssm.amazonaws.com"⟩
    (by intro q hq; simp [List.lookup] at hq)

/-- C5: the provider an `OrganizationalUnit` construction registers is
granted exactly the four organization API operations
CreateOrganizationalUnit, ListOrganizationalUnitsForParent, ListRoots and
UpdateOrganizationalUnit, and nothing else (assuming the stack has no
conflicting binding under the fixed key, which only this class uses). -/
theorem ou_provider_policy_four_actions (st : OUState) (cid : String)
    (p : OrganizationalUnitProps)
    (h : ∀ q : Provider, st.stack.providers.lookup ouKey = some q →
           q.cfg = ouProviderConfig) :
    (constructOrganizationalUnit st cid p).1.provider.cfg.policyStatements =
      [{ effect := "Allow"
       , actions := ["organizations:CreateOrganizationalUnit",
                     "organizations:ListOrganizationalUnitsForParent",
                     "organizations:ListRoots",
                     "organizations:UpdateOrganizationalUnit"]
       , resource := "*" }] := by
  unfold constructOrganizationalUnit getOrCreateProvider
  cases hq : st.stack.providers.lookup ouKey with
  | none => simp [hq, ouProviderConfig]
  | some q => simp [hq, h q hq, ouProviderConfig]

/-- Witness for C5: a construction in an empty stack. -/
theorem ou_provider_policy_four_actions_witness :
    (constructOrganizationalUnit ⟨⟨[], 0⟩, false⟩ "SecurityOU"
        ⟨"Security", "/", "cmk", 365⟩).1.provider.cfg.policyStatements =
      [{ effect := "Allow"
       , actions := ["organizations:CreateOrganizationalUnit",
                     "organizations:ListOrganizationalUnitsForParent",
                     "organizations:ListRoots",
                     "organizations:UpdateOrganizationalUnit"]
       , resource := "*" }] :=
  ou_provider_policy_four_actions ⟨⟨[], 0⟩, false⟩ "SecurityOU"
    ⟨"Security", "/", "cmk", 365⟩
    (by intro q hq; simp [List.lookup] at hq)

/-- C6: the properties an `OrganizationalUnit` passes to its custom
resource are exactly partition, name and path; the kmsKey and
logRetentionInDays props are not forwarded (changing them leaves the
custom-resource properties unchanged). -/
theorem ou_custom_resource_properties_exact (st : OUState) (cid : String)
    (p : OrganizationalUnitProps) (k : String) (n : Nat) :
    ((constructOrganizationalUnit st cid p).1).resource.properties =
      [("partition", awsPartitionToken), ("name", p.name), ("path", p.path)] ∧
    ((constructOrganizationalUnit st cid
        { p with kmsKey := k, logRetentionInDays := n }).1).resource.properties =
      ((constructOrganizationalUnit st cid p).1).resource.properties :=
  ⟨rfl, rfl⟩

/-- C7: an `OrganizationalUnit` exposes organizationalUnitId as its custom
resource's ref, organizationalUnitArn as its arn attribute, and
organizationalUnitName/Path as the name and path props; an
`EnableAwsServiceAccess` exposes id as its custom resource's ref. -/
theorem constructs_expose_resource_identifiers (st : OUState) (cid : String)
    (p : OrganizationalUnitProps) (stack : Stack) (cid2 : String)
    (q : EnableAwsServiceAccessProps) :
    ((constructOrganizationalUnit st cid p).1).organizationalUnitId =
      ((constructOrganizationalUnit st cid p).1).resource.ref ∧
    ((constructOrganizationalUnit st cid p).1).organizationalUnitArn =
      ((constructOrganizationalUnit st cid p).1).resource.getAttString "arn" ∧
    ((constructOrganizationalUnit st cid p).1).organizationalUnitName = p.name ∧
    ((constructOrganizationalUnit st cid p).1).organizationalUnitPath = p.path ∧
    ((constructEnableAwsServiceAccess stack cid2 q).1).id =
      ((constructEnableAwsServiceAccess stack cid2 q).1).resource.ref :=
  ⟨rfl, rfl, rfl, rfl, rfl⟩

/-- C8: an `OrganizationalUnit` constructed with the static flag already
set creates no log group and adds no dependency; its kmsKey and
logRetentionInDays props have no effect at all; and everything else it
produces is exactly what a first instance (flag unset, same id and props)
produces, minus the log group and the dependency. -/
theorem later_ou_frame_effect (stack : Stack) (cid nm pth k1 k2 : String)
    (n1 n2 : Nat) :
    constructOrganizationalUnit ⟨stack, true⟩ cid ⟨nm, pth, k1, n1⟩ =
      constructOrganizationalUnit ⟨stack, true⟩ cid ⟨nm, pth, k2, n2⟩ ∧
    (constructOrganizationalUnit ⟨stack, true⟩ cid ⟨nm, pth, k1, n1⟩).1.logGroup =
      none ∧
    (constructOrganizationalUnit ⟨stack, true⟩ cid
        ⟨nm, pth, k1, n1⟩).1.resource.dependencies = [] ∧
    (constructOrganizationalUnit ⟨stack, true⟩ cid ⟨nm, pth, k1, n1⟩).1 =
      { (constructOrganizationalUnit ⟨stack, false⟩ cid ⟨nm, pth, k1, n1⟩).1 with
          logGroup := none
        , resource :=
            { (constructOrganizationalUnit ⟨stack, false⟩ cid
                  ⟨nm, pth, k1, n1⟩).1.resource with
                dependencies := [] } } :=
  ⟨rfl, rfl, rfl, rfl⟩

/-- C9: both constructs obtain their provider via `getOrCreateProvider`
under their fixed key, so a later instance of the same class in the same
stack — with any other constructions in between — reuses the first
instance's provider and hence its serviceToken. -/
theorem provider_shared_per_stack_fixed_keys (st : OUState) (cs : List Cmd)
    (cid1 cid2 cid3 cid4 : String) (p1 p2 : EnableAwsServiceAccessProps)
    (q1 q2 : OrganizationalUnitProps) :
    (constructEnableAwsServiceAccess st.stack cid1 p1).1.provider =
      (getOrCreateProvider st.stack easaKey easaProviderConfig).1 ∧
    (constructOrganizationalUnit st cid3 q1).1.provider =
      (getOrCreateProvider st.stack ouKey ouProviderConfig).1 ∧
    (constructEnableAwsServiceAccess
        (applyCmds { st with
            stack := (constructEnableAwsServiceAccess st.stack cid1 p1).2 } cs).stack
        cid2 p2).1.provider =
      (constructEnableAwsServiceAccess st.stack cid1 p1).1.provider ∧
    (constructOrganizationalUnit
        (applyCmds (constructOrganizationalUnit st cid3 q1).2 cs) cid4 q2).1.provider =
      (constructOrganizationalUnit st cid3 q1).1.provider ∧
    (constructEnableAwsServiceAccess
        (applyCmds { st with
            stack := (constructEnableAwsServiceAccess st.stack cid1 p1).2 } cs).stack
        cid2 p2).1.provider.serviceToken =
      (constructEnableAwsServiceAccess st.stack cid1 p1).1.provider.serviceToken ∧
    (constructOrganizationalUnit
        (applyCmds (constructOrganizationalUnit st cid3 q1).2 cs) cid4
        q2).1.provider.serviceToken =
      (constructOrganizationalUnit st cid3 q1).1.provider.serviceToken := by
  have heasa :
      (constructEnableAwsServiceAccess
          (applyCmds { st with
              stack := (constructEnableAwsServiceAccess st.stack cid1 p1).2 } cs).stack
          cid2 p2).1.provider =
        (constructEnableAwsServiceAccess st.stack cid1 p1).1.provider := by
    refine getOrCreateProvider_of_lookup _ easaKey easaProviderConfig _ ?_
    refine applyCmds_preserves cs _ easaKey _ ?_
    exact getOrCreateProvider_binds st.stack easaKey easaProviderConfig
  have hou :
      (constructOrganizationalUnit
          (applyCmds (constructOrganizationalUnit st cid3 q1).2 cs) cid4
          q2).1.provider =
        (constructOrganizationalUnit st cid3 q1).1.provider := by
    refine getOrCreateProvider_of_lookup _ ouKey ouProviderConfig _ ?_
    refine applyCmds_preserves cs _ ouKey _ ?_
    exact getOrCreateProvider_binds st.stack ouKey ouProviderConfig
  exact ⟨rfl, rfl, heasa, hou, congrArg Provider.serviceToken heasa,
    congrArg Provider.serviceToken hou⟩

/-- C10: the five toolkit actions (Bootstrap, Logging, Organizations,
SecurityAudit, and Security in the Deploy stage) all use the shared
toolkit project, the Build output as input, the configuration artifact as
extra input, and the pipeline role, with a single CDK_OPTIONS environment
variable — so any two of them differ only in actionName, runOrder, and
the CDK_OPTIONS value. -/
theorem toolkit_actions_uniform (r b : String) :
    (pipelineToolkitActions r b).map (fun c => c.actionName) =
      ["Bootstrap", "Logging", "Organizations", "SecurityAudit", "Security"] ∧
    (pipelineToolkitActions r b).map
        (fun c => (c.project, c.input, c.outputs, c.extraInputs, c.role,
                   c.environmentVariables.map Prod.fst)) =
      List.replicate 5
        ("ToolkitProject", "Build", ([] : List String), ["Config"],
         "PipelineRole", ["CDK_OPTIONS"]) :=
  ⟨rfl, rfl⟩
